import Mathlib

/-!
Verification of the SkyGate evidence-fusion core
(`src/backend/src/detection/detection_engine.py` and the summary helper in
`src/backend/src/api/endpoints.py`).

Modelling conventions:
* Python `float` values (confidences, weights, scores) are modelled as exact
  rationals `ℚ`; decimal literals such as `0.15` denote the exact rational
  `15/100`.  Floating-point rounding is abstracted away.
* A Python dict that may or may not contain a key is modelled with `Option`
  fields; a raised-and-caught exception is modelled with `Except String`.
* The per-detector result dict `results['method_results']` is an association
  list keyed by the method name, and `aggregate_results` consumes it through
  an `String → Option MethodResult` lookup, mirroring the
  `if method_name in results['method_results']` guard in the source.
-/

attribute [local semireducible] Rat.add Rat.mul Rat.inv Rat.sub Rat.ofScientific

namespace SkyGate

/-- One entry of `results['method_results'][name]`: the dict stored by
`DetectionEngine.detect` for one detection method.  Successful methods store
`is_ai_generated`, `confidence_score` and method-specific auxiliary keys;
failed methods store `is_ai_generated = False`, `confidence_score = 0.0` and
an `error` string.  Keys that a given dict does not carry are `none`. -/
structure MethodResult where
  is_ai_generated : Bool
  confidence_score : ℚ
  error : Option String
  anomalies : Option (List String)
  error_level_score : Option ℚ
  ela_image_path : Option String
  pattern_score : Option ℚ
  smoothness_score : Option ℚ
  processing_time : Option ℚ
deriving DecidableEq, Repr

/-- The dict returned by a detection method that did not raise:
`is_ai_generated`, `confidence_score` and the auxiliary keys of that method
(no `error` key is ever present on success in the source). -/
structure DetectorOutput where
  is_ai_generated : Bool
  confidence_score : ℚ
  anomalies : Option (List String)
  error_level_score : Option ℚ
  ela_image_path : Option String
  pattern_score : Option ℚ
  smoothness_score : Option ℚ
  processing_time : Option ℚ
deriving DecidableEq, Repr

/-- A successful detector output carrying only a verdict and a confidence
(the auxiliary keys absent), as the placeholder model predictors return. -/
def plainOutput (ai : Bool) (conf : ℚ) : DetectorOutput :=
  ⟨ai, conf, none, none, none, none, none, none⟩

/-- The method-result dict recorded for a successful invocation. -/
def okResult (o : DetectorOutput) : MethodResult :=
  ⟨o.is_ai_generated, o.confidence_score, none, o.anomalies, o.error_level_score,
    o.ela_image_path, o.pattern_score, o.smoothness_score, o.processing_time⟩

/-- The method-result dict recorded when a detection method raises:
`{'is_ai_generated': False, 'confidence_score': 0.0, 'error': str(e)}`. -/
def failedResult (e : String) : MethodResult :=
  ⟨false, 0, some e, none, none, none, none, none, none⟩

/-- `DetectionEngine.register_detection_methods`: the registry of detection
methods as `(name, weight)` pairs, in registration (= iteration) order.  The
callables themselves are supplied separately as an `invoke` function. -/
def detection_methods : List (String × ℚ) :=
  [("metadata_analysis", 0.15),
   ("ela_analysis", 0.20),
   ("prnu_analysis", 0.20),
   ("texture_analysis", 0.15),
   ("vit_model", 0.15),
   ("resnet_model", 0.15)]

/-- One element of `contributing_factors`:
`{'factor': name, 'weight': weight, 'contribution': confidence}`. -/
structure ContributingFactor where
  factor : String
  weight : ℚ
  contribution : ℚ
deriving DecidableEq, Repr

/-- Whether the loop body of `aggregate_results` processes method `m`:
the method name is present in `results['method_results']` and the stored
dict has no `'error'` key. -/
def non_failed (resMap : String → Option MethodResult) (m : String × ℚ) : Bool :=
  match resMap m.1 with
  | some r => r.error = none
  | none => false

/-- Contribution of method `m` to the accumulator `weighted_sum`
(`weight * confidence` when the method is present and non-failed, else the
loop body leaves the accumulator unchanged, modelled as adding `0`). -/
def method_contribution (resMap : String → Option MethodResult) (m : String × ℚ) : ℚ :=
  match resMap m.1 with
  | some r => if r.error = none then m.2 * r.confidence_score else 0
  | none => 0

/-- Contribution of method `m` to the accumulator `total_weight`. -/
def method_weight (resMap : String → Option MethodResult) (m : String × ℚ) : ℚ :=
  match resMap m.1 with
  | some r => if r.error = none then m.2 else 0
  | none => 0

/-- The `weighted_sum` accumulator of `aggregate_results` after the loop
over `self.detection_methods.items()`. -/
def weighted_sum (methods : List (String × ℚ))
    (resMap : String → Option MethodResult) : ℚ :=
  (methods.map (method_contribution resMap)).sum

/-- The `total_weight` accumulator of `aggregate_results` after the loop. -/
def total_weight (methods : List (String × ℚ))
    (resMap : String → Option MethodResult) : ℚ :=
  (methods.map (method_weight resMap)).sum

/-- The `contributing_factors` list built by the loop of
`aggregate_results`: a method is appended, in registry order, exactly when it
is present, has no `'error'` key, and satisfies
`method_result['is_ai_generated'] and confidence > 0.6`. -/
def contributing_factor? (resMap : String → Option MethodResult)
    (m : String × ℚ) : Option ContributingFactor :=
  match resMap m.1 with
  | some r =>
      if r.error = none ∧ r.is_ai_generated = true ∧ r.confidence_score > 0.6 then
        some ⟨m.1, m.2, r.confidence_score⟩
      else none
  | none => none

/-- The full `contributing_factors` list in registry order. -/
def contributing_factors (methods : List (String × ℚ))
    (resMap : String → Option MethodResult) : List ContributingFactor :=
  methods.filterMap (contributing_factor? resMap)

/-- `final_confidence = weighted_sum / total_weight if total_weight > 0 else 0.0`. -/
def final_confidence (methods : List (String × ℚ))
    (resMap : String → Option MethodResult) : ℚ :=
  if total_weight methods resMap > 0 then
    weighted_sum methods resMap / total_weight methods resMap
  else 0

/-- The three fields that `aggregate_results` writes back into the results
dict. -/
structure AggregatedResults where
  is_ai_generated : Bool
  confidence_score : ℚ
  contributing_factors : List ContributingFactor
deriving DecidableEq, Repr

/-- `DetectionEngine.aggregate_results`: weighted average over the
non-failed methods, strict `> 0.5` verdict threshold, and the
contributing-factors filter. -/
def aggregate_results (methods : List (String × ℚ))
    (resMap : String → Option MethodResult) : AggregatedResults :=
  { is_ai_generated := decide (final_confidence methods resMap > 0.5)
  , confidence_score := final_confidence methods resMap
  , contributing_factors := contributing_factors methods resMap }

/-- The per-method loop body of `DetectionEngine.detect`: a raising method
is downgraded to the failed placeholder dict, a returning method's dict is
stored as-is. -/
def run_method (outcome : Except String DetectorOutput) : MethodResult :=
  match outcome with
  | Except.ok o => okResult o
  | Except.error e => failedResult e

/-- The `results['method_results']` association list built by the loop of
`detect`: every registered method gets exactly one entry, in registry
order. -/
def method_results_run (methods : List (String × ℚ))
    (invoke : String → Except String DetectorOutput) : List (String × MethodResult) :=
  methods.map (fun m => (m.1, run_method (invoke m.1)))

/-- Lookup into the method-results dict. -/
def resMap_of (methods : List (String × ℚ))
    (invoke : String → Except String DetectorOutput) : String → Option MethodResult :=
  fun name => List.lookup name (method_results_run methods invoke)

/-- The detection-relevant fields of the dict returned by
`DetectionEngine.detect` (`processing_time` is wall-clock time and is not
modelled). -/
structure DetectionResults where
  is_ai_generated : Bool
  confidence_score : ℚ
  method_results : List (String × MethodResult)
  contributing_factors : List ContributingFactor
deriving DecidableEq, Repr

/-- `DetectionEngine.detect`, given the outcome of invoking each detection
method (a returned dict or a raised exception message).  Per-method
exceptions are absorbed into failed placeholder entries; the aggregation
then runs over the resulting dict. -/
def detect (methods : List (String × ℚ))
    (invoke : String → Except String DetectorOutput) : DetectionResults :=
  let rs := method_results_run methods invoke
  let agg := aggregate_results methods (fun name => List.lookup name rs)
  { is_ai_generated := agg.is_ai_generated
  , confidence_score := agg.confidence_score
  , method_results := rs
  , contributing_factors := agg.contributing_factors }

/-! Metadata projection: `DetectionEngine.update_metadata` shapes the results
dict into the nested document sent to MongoDB.  We model the document shape
and the pure projection; the database write itself is a collaborator call. -/

/-- `exif_data.analysis_result` in the update document. -/
structure ExifAnalysisResult where
  is_suspicious : Bool
  confidence : ℚ
  anomalies : List String
deriving DecidableEq, Repr

/-- `pixel_analysis.ela_results` in the update document. -/
structure ElaResults where
  error_level_score : ℚ
  is_suspicious : Bool
  confidence : ℚ
  ela_image_path : String
deriving DecidableEq, Repr

/-- `pixel_analysis.prnu_results` in the update document. -/
structure PrnuResults where
  pattern_score : ℚ
  is_suspicious : Bool
  confidence : ℚ
deriving DecidableEq, Repr

/-- `pixel_analysis.texture_analysis` in the update document. -/
structure TextureAnalysis where
  smoothness_score : ℚ
  is_suspicious : Bool
  confidence : ℚ
deriving DecidableEq, Repr

/-- One element of `model_results` in the update document. -/
structure ModelResult where
  model_name : String
  model_version : String
  is_ai_generated : Bool
  confidence : ℚ
  processing_time : ℚ
deriving DecidableEq, Repr

/-- The update document assembled by `update_metadata`; sub-documents for
methods absent from `method_results` are omitted (`none`). -/
structure UpdateData where
  aggregated_results : AggregatedResults
  exif_data : Option ExifAnalysisResult
  ela_results : Option ElaResults
  prnu_results : Option PrnuResults
  texture_analysis : Option TextureAnalysis
  model_results : List ModelResult
deriving DecidableEq, Repr

/-- Lookup of one method's dict in `results['method_results']`. -/
def method_result_of (results : DetectionResults) (name : String) : Option MethodResult :=
  List.lookup name results.method_results

/-- `DetectionEngine.update_metadata`: the pure projection of the results
dict into the MongoDB update document.  Absent auxiliary keys are read with
`.get(key, default)` defaults (`0.0`, `''`, `[]`) as in the source. -/
def update_metadata (results : DetectionResults) : UpdateData :=
  { aggregated_results :=
      { is_ai_generated := results.is_ai_generated
      , confidence_score := results.confidence_score
      , contributing_factors := results.contributing_factors }
  , exif_data :=
      (method_result_of results "metadata_analysis").map fun r =>
        { is_suspicious := r.is_ai_generated
        , confidence := r.confidence_score
        , anomalies := r.anomalies.getD [] }
  , ela_results :=
      (method_result_of results "ela_analysis").map fun r =>
        { error_level_score := r.error_level_score.getD 0
        , is_suspicious := r.is_ai_generated
        , confidence := r.confidence_score
        , ela_image_path := r.ela_image_path.getD "" }
  , prnu_results :=
      (method_result_of results "prnu_analysis").map fun r =>
        { pattern_score := r.pattern_score.getD 0
        , is_suspicious := r.is_ai_generated
        , confidence := r.confidence_score }
  , texture_analysis :=
      (method_result_of results "texture_analysis").map fun r =>
        { smoothness_score := r.smoothness_score.getD 0
        , is_suspicious := r.is_ai_generated
        , confidence := r.confidence_score }
  , model_results :=
      ((method_result_of results "vit_model").map fun r =>
        ({ model_name := "Vision Transformer"
         , model_version := "1.0"
         , is_ai_generated := r.is_ai_generated
         , confidence := r.confidence_score
         , processing_time := r.processing_time.getD 0 } : ModelResult)).toList ++
      ((method_result_of results "resnet_model").map fun r =>
        ({ model_name := "ResNet50 NoDown"
         , model_version := "1.0"
         , is_ai_generated := r.is_ai_generated
         , confidence := r.confidence_score
         , processing_time := r.processing_time.getD 0 } : ModelResult)).toList }

/-! Summary generator: `generate_result_summary` in
`src/backend/src/api/endpoints.py`.  The input dict may, in general, miss
keys (`Option` fields); a missing required key raises a `KeyError`, which the
surrounding `try`/`except` turns into the fixed fallback sentence.  We model
the raising body as an `Option String` computation and the `except` clause as
`Option.getD` of the fallback. -/

/-- Models Python `f-string` percent formatting `{x:.1%}`: the value times
100, printed with one decimal digit and a percent sign.  The tie-breaking of
binary floating point `round` is abstracted to rounding of the exact
rational. -/
def formatPercent (x : ℚ) : String :=
  let t : ℤ := round (x * 1000)
  toString (t / 10) ++ "." ++ toString (t % 10) ++ "%"

/-- One entry of the `contributing_factors` list as the summary generator
reads it: the `'factor'` and `'contribution'` keys, possibly absent. -/
structure SummaryFactor where
  factor : Option String
  contribution : Option ℚ
deriving DecidableEq, Repr

/-- The keys of the `detection_results` dict that `generate_result_summary`
reads, each possibly absent. -/
structure SummaryInput where
  is_ai_generated : Option Bool
  confidence_score : Option ℚ
  contributing_factors : Option (List SummaryFactor)
deriving DecidableEq, Repr

/-- The view of a `detect` result consumed by `generate_result_summary`
(every key present). -/
def detection_results_to_summary_input (r : DetectionResults) : SummaryInput :=
  { is_ai_generated := some r.is_ai_generated
  , confidence_score := some r.confidence_score
  , contributing_factors :=
      some (r.contributing_factors.map fun f => ⟨some f.factor, some f.contribution⟩) }

/-- The loop body over one contributing factor: reads `factor['factor']` and
`factor['contribution']` (outer `none` = `KeyError`), then the static
name-to-phrase lookup (inner `none` = unmapped name, silently skipped). -/
def factor_description (f : SummaryFactor) : Option (Option String) := do
  let name ← f.factor
  let contribution ← f.contribution
  pure (
    if name = "metadata_analysis" then
      some ("suspicious metadata patterns (" ++ formatPercent contribution ++ " confidence)")
    else if name = "ela_analysis" then
      some ("error level analysis (" ++ formatPercent contribution ++ " confidence)")
    else if name = "prnu_analysis" then
      some ("photo response non-uniformity (" ++ formatPercent contribution ++ " confidence)")
    else if name = "texture_analysis" then
      some ("unnatural texture smoothness (" ++ formatPercent contribution ++ " confidence)")
    else if name = "vit_model" then
      some ("Vision Transformer model detection (" ++ formatPercent contribution ++ " confidence)")
    else if name = "resnet_model" then
      some ("ResNet model detection (" ++ formatPercent contribution ++ " confidence)")
    else none)

/-- The `try` body of `generate_result_summary`; `none` means the body
raised. -/
def render_summary (d : SummaryInput) : Option String := do
  let is_ai ← d.is_ai_generated
  let confidence ← d.confidence_score
  let cf := d.contributing_factors.getD []
  if is_ai then
    let base := "This image is likely AI-generated with " ++ formatPercent confidence ++
      " confidence. "
    if cf.isEmpty then
      pure base
    else do
      let descs ← cf.mapM factor_description
      pure (base ++ "Key indicators include: " ++
        String.intercalate ", " (descs.filterMap id) ++ ".")
  else
    pure ("This image appears to be authentic with " ++ formatPercent (1 - confidence) ++
      " confidence. " ++ "No significant indicators of AI generation were detected.")

/-- `generate_result_summary`: the rendered summary, or the fixed fallback
sentence when the body raises. -/
def generate_result_summary (d : SummaryInput) : String :=
  (render_summary d).getD "Detection completed, but summary generation failed."

/-! Spec-side definitions.  These follow the wording of the specification
(section 4.3) and are compared against the code-side definitions above. -/

/-- The `confidence` field of the outcome stored for method `m` (`0` when
absent; only read on non-failed methods). -/
def result_confidence (resMap : String → Option MethodResult) (m : String × ℚ) : ℚ :=
  match resMap m.1 with
  | some r => r.confidence_score
  | none => 0

/-- The `detected` field of the outcome stored for method `m` (`false` when
absent). -/
def result_detected (resMap : String → Option MethodResult) (m : String × ℚ) : Bool :=
  match resMap m.1 with
  | some r => r.is_ai_generated
  | none => false

/-- Modelled from the spec: `S = Σ weight_i * confidence_i`, summed only
over detectors where `failed = false`. -/
def spec_S (methods : List (String × ℚ))
    (resMap : String → Option MethodResult) : ℚ :=
  ((methods.filter (non_failed resMap)).map
    (fun m => m.2 * result_confidence resMap m)).sum

/-- Modelled from the spec: `W = Σ weight_i`, summed only over detectors
where `failed = false`. -/
def spec_W (methods : List (String × ℚ))
    (resMap : String → Option MethodResult) : ℚ :=
  ((methods.filter (non_failed resMap)).map (fun m => m.2)).sum

/-- The code's contributing-factor condition, spec-style: non-failed,
individually positive verdict, confidence strictly above `0.6`. -/
def is_contributing (resMap : String → Option MethodResult) (m : String × ℚ) : Bool :=
  non_failed resMap m && result_detected resMap m &&
    decide (result_confidence resMap m > 0.6)

/-- Contributing factors, spec-style: exactly the methods satisfying the
significance condition, emitted in registry order as
`{name, weight, contribution = confidence}`. -/
def spec_contributing_factors (methods : List (String × ℚ))
    (resMap : String → Option MethodResult) : List ContributingFactor :=
  (methods.filter (is_contributing resMap)).map
    (fun m => ⟨m.1, m.2, result_confidence resMap m⟩)

/-! Generic list helper lemmas. -/

lemma list_sum_zero (l : List ℚ) (h : ∀ x ∈ l, x = 0) : l.sum = 0 := by
  induction l with
  | nil => rfl
  | cons a t ih =>
      simp only [List.sum_cons]
      rw [h a (List.mem_cons_self a t), ih fun x hx => h x (List.mem_cons_of_mem a hx)]
      ring

lemma list_sum_nonneg (l : List ℚ) (h : ∀ x ∈ l, 0 ≤ x) : 0 ≤ l.sum := by
  induction l with
  | nil => simp
  | cons a t ih =>
      simp only [List.sum_cons]
      have ha := h a (List.mem_cons_self a t)
      have ht := ih fun x hx => h x (List.mem_cons_of_mem a hx)
      linarith

lemma list_sum_pos_of_mem (l : List ℚ) (hnn : ∀ x ∈ l, 0 ≤ x) (x : ℚ)
    (hx : x ∈ l) (hp : 0 < x) : 0 < l.sum := by
  induction l with
  | nil => simp at hx
  | cons a t ih =>
      simp only [List.sum_cons]
      rcases List.mem_cons.mp hx with rfl | hx
      · have ht := list_sum_nonneg t fun y hy => hnn y (List.mem_cons_of_mem x hy)
        linarith
      · have ht := ih (fun y hy => hnn y (List.mem_cons_of_mem a hy)) hx
        have ha := hnn a (List.mem_cons_self a t)
        linarith

lemma sum_map_ite {α : Type} (l : List α) (p : α → Bool) (g : α → ℚ) :
    (l.map fun x => if p x then g x else 0).sum = ((l.filter p).map g).sum := by
  induction l with
  | nil => rfl
  | cons a t ih =>
      by_cases h : p a <;>
        simp [List.filter_cons, h, ih]

lemma filterMap_ite {α β : Type} (l : List α) (p : α → Bool) (g : α → β) :
    (l.filterMap fun x => if p x then some (g x) else none) = (l.filter p).map g := by
  induction l with
  | nil => rfl
  | cons a t ih =>
      by_cases h : p a <;>
        simp [List.filter_cons, List.filterMap_cons, h, ih]

lemma sum_map_single {α : Type} (l : List α) (f : α → ℚ) (a : α)
    (hnd : l.Nodup) (ha : a ∈ l) (h0 : ∀ b ∈ l, b ≠ a → f b = 0) :
    (l.map f).sum = f a := by
  induction l with
  | nil => simp at ha
  | cons b t ih =>
      have hbt : b ∉ t := (List.nodup_cons.mp hnd).1
      have htnd : t.Nodup := (List.nodup_cons.mp hnd).2
      by_cases hba : b = a
      · subst hba
        have hzero : (t.map f).sum = 0 := by
          apply list_sum_zero
          intro x hx
          rcases List.mem_map.mp hx with ⟨c, hc2, rfl⟩
          exact h0 c (List.mem_cons_of_mem b hc2) (fun h => hbt (h ▸ hc2))
        simp [hzero]
      · have hfb : f b = 0 := h0 b (List.mem_cons_self b t) hba
        have hat : a ∈ t := (List.mem_cons.mp ha).resolve_left fun h => hba h.symm
        have := ih htnd hat fun c hc2 hne => h0 c (List.mem_cons_of_mem b hc2) hne
        simp [hfb, this]

/-! Bridging lemmas between the code-side accumulators and the spec-side
sums. -/

lemma method_contribution_eq (resMap : String → Option MethodResult) (m : String × ℚ) :
    method_contribution resMap m =
      if non_failed resMap m then m.2 * result_confidence resMap m else 0 := by
  unfold method_contribution non_failed result_confidence
  cases h : resMap m.1 <;> simp

lemma method_weight_eq (resMap : String → Option MethodResult) (m : String × ℚ) :
    method_weight resMap m = if non_failed resMap m then m.2 else 0 := by
  unfold method_weight non_failed
  cases h : resMap m.1 <;> simp

lemma contributing_factor_eq (resMap : String → Option MethodResult) (m : String × ℚ) :
    contributing_factor? resMap m =
      if is_contributing resMap m then
        some ⟨m.1, m.2, result_confidence resMap m⟩
      else none := by
  unfold contributing_factor? is_contributing non_failed result_detected result_confidence
  cases h : resMap m.1 with
  | none => simp
  | some r =>
      by_cases h1 : r.error = none <;>
        by_cases h2 : r.is_ai_generated = true <;>
          by_cases h3 : r.confidence_score > 0.6 <;>
            simp [h1, h2, h3]

lemma weighted_sum_eq_spec_S (methods : List (String × ℚ))
    (resMap : String → Option MethodResult) :
    weighted_sum methods resMap = spec_S methods resMap := by
  unfold weighted_sum spec_S
  rw [show (methods.map (method_contribution resMap)) =
        (methods.map fun m => if non_failed resMap m then
          m.2 * result_confidence resMap m else 0) from
      List.map_congr_left fun m _ => method_contribution_eq resMap m]
  exact sum_map_ite methods (non_failed resMap) _

lemma total_weight_eq_spec_W (methods : List (String × ℚ))
    (resMap : String → Option MethodResult) :
    total_weight methods resMap = spec_W methods resMap := by
  unfold total_weight spec_W
  rw [show (methods.map (method_weight resMap)) =
        (methods.map fun m => if non_failed resMap m then m.2 else 0) from
      List.map_congr_left fun m _ => method_weight_eq resMap m]
  exact sum_map_ite methods (non_failed resMap) _

lemma spec_W_pos (methods : List (String × ℚ))
    (resMap : String → Option MethodResult)
    (hw : ∀ m ∈ methods, 0 < m.2)
    (hex : ∃ m ∈ methods, non_failed resMap m = true) :
    0 < spec_W methods resMap := by
  rcases hex with ⟨m, hm, hnf⟩
  have hmem : m ∈ methods.filter (non_failed resMap) :=
    List.mem_filter.mpr ⟨hm, hnf⟩
  apply list_sum_pos_of_mem _ _ m.2 (List.mem_map.mpr ⟨m, hmem, rfl⟩) (hw m hm)
  intro x hx
  rcases List.mem_map.mp hx with ⟨b, hb, rfl⟩
  exact le_of_lt (hw b (List.mem_filter.mp hb).1)

lemma final_confidence_eq_ratio (methods : List (String × ℚ))
    (resMap : String → Option MethodResult)
    (hw : ∀ m ∈ methods, 0 < m.2)
    (hex : ∃ m ∈ methods, non_failed resMap m = true) :
    final_confidence methods resMap = spec_S methods resMap / spec_W methods resMap := by
  unfold final_confidence
  rw [weighted_sum_eq_spec_S, total_weight_eq_spec_W]
  rw [if_pos (spec_W_pos methods resMap hw hex)]

/-! Unfolding lemmas for `detect` and `aggregate_results`. -/

lemma aggregate_confidence (methods : List (String × ℚ))
    (resMap : String → Option MethodResult) :
    (aggregate_results methods resMap).confidence_score =
      final_confidence methods resMap := rfl

lemma aggregate_verdict (methods : List (String × ℚ))
    (resMap : String → Option MethodResult) :
    (aggregate_results methods resMap).is_ai_generated =
      decide (final_confidence methods resMap > 0.5) := rfl

lemma aggregate_factors (methods : List (String × ℚ))
    (resMap : String → Option MethodResult) :
    (aggregate_results methods resMap).contributing_factors =
      contributing_factors methods resMap := rfl

lemma detect_confidence (methods : List (String × ℚ))
    (invoke : String → Except String DetectorOutput) :
    (detect methods invoke).confidence_score =
      final_confidence methods (resMap_of methods invoke) := rfl

lemma detect_verdict (methods : List (String × ℚ))
    (invoke : String → Except String DetectorOutput) :
    (detect methods invoke).is_ai_generated =
      decide (final_confidence methods (resMap_of methods invoke) > 0.5) := rfl

lemma method_result_of_detect (methods : List (String × ℚ))
    (invoke : String → Except String DetectorOutput) (name : String) :
    method_result_of (detect methods invoke) name = resMap_of methods invoke name := rfl

/-- Every registered method name is mapped by the per-method loop of
`detect` to the recorded outcome of its own invocation. -/
lemma resMap_of_eq (methods : List (String × ℚ))
    (invoke : String → Except String DetectorOutput) (name : String)
    (h : name ∈ methods.map Prod.fst) :
    resMap_of methods invoke name = some (run_method (invoke name)) := by
  induction methods with
  | nil => simp at h
  | cons m t ih =>
      unfold resMap_of method_results_run at *
      simp only [List.map_cons, List.lookup]
      by_cases hm : name = m.1
      · subst hm
        simp
      · have hb : (name == m.1) = false := beq_eq_false_iff_ne.mpr hm
        rw [hb]
        apply ih
        simp only [List.map_cons, List.mem_cons] at h
        exact h.resolve_left hm

lemma non_failed_of_ok (methods : List (String × ℚ))
    (invoke : String → Except String DetectorOutput) (m : String × ℚ)
    (hm : m ∈ methods) (o : DetectorOutput) (ho : invoke m.1 = Except.ok o) :
    non_failed (resMap_of methods invoke) m = true := by
  unfold non_failed
  rw [resMap_of_eq methods invoke m.1 (List.mem_map_of_mem Prod.fst hm), ho]
  simp [run_method, okResult]

lemma non_failed_of_error (methods : List (String × ℚ))
    (invoke : String → Except String DetectorOutput) (m : String × ℚ)
    (hm : m ∈ methods) (e : String) (he : invoke m.1 = Except.error e) :
    non_failed (resMap_of methods invoke) m = false := by
  unfold non_failed
  rw [resMap_of_eq methods invoke m.1 (List.mem_map_of_mem Prod.fst hm), he]
  simp [run_method, failedResult]

/-! Concrete detector-outcome assignments used by the witness theorems. -/

/-- Every detector succeeds with a positive verdict at confidence `0.7`. -/
def allOkInvoke : String → Except String DetectorOutput :=
  fun _ => Except.ok (plainOutput true 0.7)

/-- Every detector raises. -/
def allFailInvoke : String → Except String DetectorOutput :=
  fun _ => Except.error "io error"

/-- The metadata detector raises; all others succeed. -/
def metaFailInvoke : String → Except String DetectorOutput :=
  fun name =>
    if name = "metadata_analysis" then Except.error "simulated detector failure"
    else Except.ok (plainOutput true 0.8)

/-- The metadata detector reports a confident positive verdict; all other
detectors report a negative verdict at confidence `0`. -/
def mixedInvoke : String → Except String DetectorOutput :=
  fun name =>
    if name = "metadata_analysis" then Except.ok (plainOutput true 0.7)
    else Except.ok (plainOutput false 0)

/-- Every detector reports a positive verdict at confidence exactly `0.6`. -/
def const06Invoke : String → Except String DetectorOutput :=
  fun _ => Except.ok (plainOutput true 0.6)

/-- Every detector stored a successful positive outcome at confidence
`0.7`. -/
def allOkMap : String → Option MethodResult :=
  fun _ => some (okResult (plainOutput true 0.7))

/-- Only the metadata detector succeeds (confidence `0.8`); the rest
failed. -/
def singleOkMap : String → Option MethodResult :=
  fun name =>
    if name = "metadata_analysis" then some (okResult (plainOutput true 0.8))
    else some (failedResult "simulated detector failure")

/-- C2: with at least one non-failed detector, `detect` returns
`final_confidence = S / W` where `S = Σ weight_i * confidence_i` and
`W = Σ weight_i` range over exactly the non-failed detectors, and
`final_verdict` holds iff that ratio is strictly greater than `0.5` (so a
ratio of exactly `0.5` yields a `false` verdict). -/
theorem detect_confidence_is_weighted_average
    (invoke : String → Except String DetectorOutput)
    (hex : ∃ m ∈ detection_methods, ∃ o, invoke m.1 = Except.ok o) :
    (detect detection_methods invoke).confidence_score =
      spec_S detection_methods (resMap_of detection_methods invoke) /
        spec_W detection_methods (resMap_of detection_methods invoke) ∧
    ((detect detection_methods invoke).is_ai_generated = true ↔
      spec_S detection_methods (resMap_of detection_methods invoke) /
        spec_W detection_methods (resMap_of detection_methods invoke) > 0.5) := by
  have hw : ∀ m ∈ detection_methods, 0 < m.2 := by decide
  have hex' : ∃ m ∈ detection_methods,
      non_failed (resMap_of detection_methods invoke) m = true := by
    rcases hex with ⟨m, hm, o, ho⟩
    exact ⟨m, hm, non_failed_of_ok detection_methods invoke m hm o ho⟩
  have hfc := final_confidence_eq_ratio detection_methods
    (resMap_of detection_methods invoke) hw hex'
  refine ⟨?_, ?_⟩
  · rw [detect_confidence, hfc]
  · rw [detect_verdict, hfc]
    simp

/-- Witness for C2 at a concrete invocation where all detectors succeed. -/
theorem detect_confidence_is_weighted_average_witness :
    (∃ m ∈ detection_methods, ∃ o, allOkInvoke m.1 = Except.ok o) ∧
    (detect detection_methods allOkInvoke).confidence_score =
      spec_S detection_methods (resMap_of detection_methods allOkInvoke) /
        spec_W detection_methods (resMap_of detection_methods allOkInvoke) :=
  ⟨⟨("metadata_analysis", 0.15), by decide, plainOutput true 0.7, rfl⟩,
    (detect_confidence_is_weighted_average allOkInvoke
      ⟨("metadata_analysis", 0.15), by decide, plainOutput true 0.7, rfl⟩).1⟩

/-- C3: when every registered detector fails, `detect` still returns a
well-formed result with `final_confidence = 0` and `final_verdict = false`
(the embedding is a total function: no exception escapes). -/
theorem all_detectors_failed_degraded_result
    (invoke : String → Except String DetectorOutput)
    (hall : ∀ m ∈ detection_methods, ∃ e, invoke m.1 = Except.error e) :
    (detect detection_methods invoke).confidence_score = 0 ∧
    (detect detection_methods invoke).is_ai_generated = false := by
  have htw : total_weight detection_methods (resMap_of detection_methods invoke) = 0 := by
    unfold total_weight
    apply list_sum_zero
    intro x hx
    rcases List.mem_map.mp hx with ⟨m, hm, rfl⟩
    rcases hall m hm with ⟨e, he⟩
    unfold method_weight
    rw [resMap_of_eq detection_methods invoke m.1 (List.mem_map_of_mem Prod.fst hm), he]
    simp [run_method, failedResult]
  have hfc : final_confidence detection_methods (resMap_of detection_methods invoke) = 0 := by
    unfold final_confidence
    rw [htw]
    simp
  exact ⟨by rw [detect_confidence, hfc], by rw [detect_verdict, hfc]; decide⟩

/-- Witness for C3 at a concrete invocation where every detector raises. -/
theorem all_detectors_failed_degraded_result_witness :
    (∀ m ∈ detection_methods, ∃ e, allFailInvoke m.1 = Except.error e) ∧
    (detect detection_methods allFailInvoke).confidence_score = 0 ∧
    (detect detection_methods allFailInvoke).is_ai_generated = false :=
  ⟨fun _ _ => ⟨"io error", rfl⟩,
    all_detectors_failed_degraded_result allFailInvoke
      fun _ _ => ⟨"io error", rfl⟩⟩

/-- C5: if exactly one registered detector is non-failed, the aggregate
confidence equals that detector's own confidence (its weight cancels) and
the verdict is exactly `confidence > 0.5`, for any registry with positive
weights and distinct names, whatever the detector's own verdict is. -/
theorem single_success_returns_own_confidence
    (methods : List (String × ℚ)) (resMap : String → Option MethodResult)
    (m₀ : String × ℚ) (r₀ : MethodResult)
    (hw : ∀ m ∈ methods, 0 < m.2)
    (hnd : (methods.map Prod.fst).Nodup)
    (hm : m₀ ∈ methods)
    (hr : resMap m₀.1 = some r₀)
    (hok : r₀.error = none)
    (hfail : ∀ m ∈ methods, m.1 ≠ m₀.1 → non_failed resMap m = false) :
    (aggregate_results methods resMap).confidence_score = r₀.confidence_score ∧
    ((aggregate_results methods resMap).is_ai_generated = true ↔
      r₀.confidence_score > 0.5) := by
  have hmethods_nd : methods.Nodup := hnd.of_map
  have huniq : ∀ b ∈ methods, b ≠ m₀ → non_failed resMap b = false := by
    intro b hb hne
    apply hfail b hb
    intro h1
    exact hne (List.inj_on_of_nodup_map hnd hb hm h1)
  have hnfm : non_failed resMap m₀ = true := by
    unfold non_failed
    rw [hr]
    simp [hok]
  have hws : weighted_sum methods resMap = m₀.2 * r₀.confidence_score := by
    unfold weighted_sum
    rw [sum_map_single methods _ m₀ hmethods_nd hm
      fun b hb hne => by rw [method_contribution_eq, huniq b hb hne]; simp]
    simp [method_contribution, hr, hok]
  have htw : total_weight methods resMap = m₀.2 := by
    unfold total_weight
    rw [sum_map_single methods _ m₀ hmethods_nd hm
      fun b hb hne => by rw [method_weight_eq, huniq b hb hne]; simp]
    rw [method_weight_eq, hnfm]
    simp
  have hpos : 0 < m₀.2 := hw m₀ hm
  have hfc : final_confidence methods resMap = r₀.confidence_score := by
    unfold final_confidence
    rw [hws, htw, if_pos hpos, mul_div_cancel_left₀ _ (ne_of_gt hpos)]
  refine ⟨?_, ?_⟩
  · rw [aggregate_confidence, hfc]
  · rw [aggregate_verdict, hfc]
    simp

/-- Witness for C5: only the metadata detector succeeds, with confidence
`0.8`; the aggregate confidence is `0.8` and the verdict `true`. -/
theorem single_success_returns_own_confidence_witness :
    (("metadata_analysis", (0.15 : ℚ)) ∈ detection_methods ∧
      singleOkMap "metadata_analysis" = some (okResult (plainOutput true 0.8)) ∧
      (∀ m ∈ detection_methods, m.1 ≠ "metadata_analysis" →
        non_failed singleOkMap m = false)) ∧
    (aggregate_results detection_methods singleOkMap).confidence_score =
      (okResult (plainOutput true 0.8)).confidence_score :=
  ⟨⟨by decide, rfl, by decide⟩,
    (single_success_returns_own_confidence detection_methods singleOkMap
      ("metadata_analysis", 0.15) (okResult (plainOutput true 0.8))
      (by decide) (by decide) (by decide) rfl rfl (by decide)).1⟩

/-- C6: with positive weights and every stored confidence in `[0, 1]`, the
aggregated confidence stays in `[0, 1]`. -/
theorem final_confidence_in_unit_interval
    (methods : List (String × ℚ)) (resMap : String → Option MethodResult)
    (hw : ∀ m ∈ methods, 0 < m.2)
    (hconf : ∀ name r, resMap name = some r →
      0 ≤ r.confidence_score ∧ r.confidence_score ≤ 1) :
    0 ≤ (aggregate_results methods resMap).confidence_score ∧
    (aggregate_results methods resMap).confidence_score ≤ 1 := by
  rw [aggregate_confidence]
  unfold final_confidence
  by_cases h : total_weight methods resMap > 0
  · rw [if_pos h]
    have hS0 : 0 ≤ weighted_sum methods resMap := by
      unfold weighted_sum
      apply list_sum_nonneg
      intro x hx
      rcases List.mem_map.mp hx with ⟨m, hm, rfl⟩
      rw [method_contribution_eq]
      by_cases hnf : non_failed resMap m
      · rw [if_pos hnf]
        apply mul_nonneg (le_of_lt (hw m hm))
        unfold result_confidence
        cases hres : resMap m.1 with
        | none => exact le_refl 0
        | some r => exact (hconf m.1 r hres).1
      · rw [if_neg hnf]
    have hSW : weighted_sum methods resMap ≤ total_weight methods resMap := by
      unfold weighted_sum total_weight
      apply List.sum_le_sum
      intro m hm
      rw [method_contribution_eq, method_weight_eq]
      by_cases hnf : non_failed resMap m
      · rw [if_pos hnf, if_pos hnf]
        apply mul_le_of_le_one_right (le_of_lt (hw m hm))
        unfold result_confidence
        cases hres : resMap m.1 with
        | none => norm_num
        | some r => exact (hconf m.1 r hres).2
      · rw [if_neg hnf, if_neg hnf]
    exact ⟨div_nonneg hS0 (le_of_lt h), (div_le_one h).mpr hSW⟩
  · rw [if_neg h]
    norm_num

/-- Witness for C6 at an assignment where every detector reports confidence
`0.7`. -/
theorem final_confidence_in_unit_interval_witness :
    ((∀ m ∈ detection_methods, 0 < m.2) ∧
      (∀ name r, allOkMap name = some r →
        0 ≤ r.confidence_score ∧ r.confidence_score ≤ 1)) ∧
    0 ≤ (aggregate_results detection_methods allOkMap).confidence_score ∧
    (aggregate_results detection_methods allOkMap).confidence_score ≤ 1 :=
  ⟨⟨by decide, fun name r h => by
      rw [← Option.some.inj h]
      decide⟩,
    final_confidence_in_unit_interval detection_methods allOkMap (by decide)
      fun name r h => by
        rw [← Option.some.inj h]
        decide⟩

/-- C7: aggregation is invariant under permutation of the registry order:
a permuted registry produces the same final confidence and the same final
verdict for the same detector outcomes. -/
theorem aggregation_is_order_invariant
    (methodsA methodsB : List (String × ℚ)) (resMap : String → Option MethodResult)
    (hperm : methodsA.Perm methodsB) :
    (aggregate_results methodsA resMap).confidence_score =
      (aggregate_results methodsB resMap).confidence_score ∧
    (aggregate_results methodsA resMap).is_ai_generated =
      (aggregate_results methodsB resMap).is_ai_generated := by
  have hws : weighted_sum methodsA resMap = weighted_sum methodsB resMap :=
    (hperm.map (method_contribution resMap)).sum_eq
  have htw : total_weight methodsA resMap = total_weight methodsB resMap :=
    (hperm.map (method_weight resMap)).sum_eq
  have hfc : final_confidence methodsA resMap = final_confidence methodsB resMap := by
    unfold final_confidence
    rw [hws, htw]
  exact ⟨by rw [aggregate_confidence, aggregate_confidence, hfc],
    by rw [aggregate_verdict, aggregate_verdict, hfc]⟩

/-- Witness for C7: the reversed registry yields the same confidence as the
registry itself. -/
theorem aggregation_is_order_invariant_witness :
    detection_methods.Perm detection_methods.reverse ∧
    (aggregate_results detection_methods allOkMap).confidence_score =
      (aggregate_results detection_methods.reverse allOkMap).confidence_score :=
  ⟨(List.reverse_perm detection_methods).symm,
    (aggregation_is_order_invariant detection_methods detection_methods.reverse
      allOkMap (List.reverse_perm detection_methods).symm).1⟩


/-- C1 (amended): `contributing_factors` is exactly the list of non-failed
detectors whose own verdict is positive (`is_ai_generated = true`) and whose
confidence is strictly greater than `0.6`, emitted as
`{name, weight, contribution = confidence}` in registry order; the final
verdict plays no role in the filter. -/
theorem contributing_factors_exactly_positive_significant
    (methods : List (String × ℚ)) (resMap : String → Option MethodResult) :
    (aggregate_results methods resMap).contributing_factors =
      spec_contributing_factors methods resMap := by
  rw [aggregate_factors]
  unfold contributing_factors spec_contributing_factors
  have h : contributing_factor? resMap = fun m =>
      if is_contributing resMap m then
        some (⟨m.1, m.2, result_confidence resMap m⟩ : ContributingFactor)
      else none := funext (contributing_factor_eq resMap)
  rw [h, filterMap_ite]

/-- C1 counterexample: a run whose final verdict is `false` but whose
`contributing_factors` nevertheless lists the metadata detector, which
reported `detected = true` — contradicting the claim that a listed factor's
`detected` always equals the final verdict. -/
theorem verdict_false_yet_positive_factor_listed :
    (detect detection_methods mixedInvoke).is_ai_generated = false ∧
    (⟨"metadata_analysis", 0.15, 0.7⟩ : ContributingFactor) ∈
      (detect detection_methods mixedInvoke).contributing_factors ∧
    result_detected (resMap_of detection_methods mixedInvoke)
      ("metadata_analysis", 0.15) = true := by decide

/-- C4: when one registered detector raises, its recorded outcome is the
failed placeholder carrying the failure description, every registered
detector still has its own invocation recorded, the failed detector is
excluded from aggregation, and the final confidence is the weighted average
over the remaining non-failed detectors with renormalized weight sum (the
embedding of `detect` is total: no exception escapes). -/
theorem detector_failure_is_isolated
    (invoke : String → Except String DetectorOutput) (nameF : String) (e : String)
    (hmem : nameF ∈ detection_methods.map Prod.fst)
    (he : invoke nameF = Except.error e)
    (hex : ∃ m ∈ detection_methods, ∃ o, invoke m.1 = Except.ok o) :
    method_result_of (detect detection_methods invoke) nameF = some (failedResult e) ∧
    (∀ name ∈ detection_methods.map Prod.fst,
      method_result_of (detect detection_methods invoke) name =
        some (run_method (invoke name))) ∧
    (∀ m ∈ detection_methods, m.1 = nameF →
      non_failed (resMap_of detection_methods invoke) m = false) ∧
    (detect detection_methods invoke).confidence_score =
      spec_S detection_methods (resMap_of detection_methods invoke) /
        spec_W detection_methods (resMap_of detection_methods invoke) := by
  refine ⟨?_, ?_, ?_, ?_⟩
  · rw [method_result_of_detect, resMap_of_eq detection_methods invoke nameF hmem, he]
    rfl
  · intro name hname
    rw [method_result_of_detect, resMap_of_eq detection_methods invoke name hname]
  · intro m hm h1
    have he2 : invoke m.1 = Except.error e := by rw [h1]; exact he
    exact non_failed_of_error detection_methods invoke m hm e he2
  · have hw : ∀ m ∈ detection_methods, 0 < m.2 := by decide
    have hex2 : ∃ m ∈ detection_methods,
        non_failed (resMap_of detection_methods invoke) m = true := by
      rcases hex with ⟨m, hm, o, ho⟩
      exact ⟨m, hm, non_failed_of_ok detection_methods invoke m hm o ho⟩
    rw [detect_confidence]
    exact final_confidence_eq_ratio detection_methods
      (resMap_of detection_methods invoke) hw hex2

/-- Witness for C4: the metadata detector raises, all others succeed. -/
theorem detector_failure_is_isolated_witness :
    metaFailInvoke "metadata_analysis" = Except.error "simulated detector failure" ∧
    method_result_of (detect detection_methods metaFailInvoke) "metadata_analysis" =
      some (failedResult "simulated detector failure") ∧
    (detect detection_methods metaFailInvoke).confidence_score =
      spec_S detection_methods (resMap_of detection_methods metaFailInvoke) /
        spec_W detection_methods (resMap_of detection_methods metaFailInvoke) :=
  ⟨rfl,
    (detector_failure_is_isolated metaFailInvoke "metadata_analysis"
      "simulated detector failure" (by decide) rfl
      ⟨("ela_analysis", 0.20), by decide, plainOutput true 0.8, rfl⟩).1,
    (detector_failure_is_isolated metaFailInvoke "metadata_analysis"
      "simulated detector failure" (by decide) rfl
      ⟨("ela_analysis", 0.20), by decide, plainOutput true 0.8, rfl⟩).2.2.2⟩

/-- C9: a failed detector's entry in the per-detector result map holds the
placeholder values `detected = false` and `confidence = 0.0` alongside the
error reason, and the metadata projection persists exactly these
placeholder values as that detector's `is_suspicious` and `confidence`
fields (with the `.get` defaults for the absent auxiliary keys). -/
theorem failed_detector_placeholder_projected
    (invoke : String → Except String DetectorOutput) (nameF : String) (e : String)
    (hmem : nameF ∈ detection_methods.map Prod.fst)
    (he : invoke nameF = Except.error e) :
    method_result_of (detect detection_methods invoke) nameF = some (failedResult e) ∧
    (nameF = "metadata_analysis" →
      (update_metadata (detect detection_methods invoke)).exif_data =
        some ⟨false, 0, []⟩) ∧
    (nameF = "ela_analysis" →
      (update_metadata (detect detection_methods invoke)).ela_results =
        some ⟨0, false, 0, ""⟩) ∧
    (nameF = "prnu_analysis" →
      (update_metadata (detect detection_methods invoke)).prnu_results =
        some ⟨0, false, 0⟩) ∧
    (nameF = "texture_analysis" →
      (update_metadata (detect detection_methods invoke)).texture_analysis =
        some ⟨0, false, 0⟩) := by
  have h1 : ∀ name, name ∈ detection_methods.map Prod.fst →
      invoke name = Except.error e →
      method_result_of (detect detection_methods invoke) name =
        some (failedResult e) := by
    intro name hn hee
    rw [method_result_of_detect, resMap_of_eq detection_methods invoke name hn, hee]
    rfl
  refine ⟨h1 nameF hmem he, ?_, ?_, ?_, ?_⟩ <;>
    (intro hn; subst hn) <;>
    simp [update_metadata, h1 _ hmem he, failedResult]

/-- Witness for C9: the metadata detector raises; its persisted projection
carries `is_suspicious = false` and `confidence = 0`. -/
theorem failed_detector_placeholder_projected_witness :
    ("metadata_analysis" ∈ detection_methods.map Prod.fst) ∧
    (update_metadata (detect detection_methods metaFailInvoke)).exif_data =
      some ⟨false, 0, []⟩ :=
  ⟨by decide,
    (failed_detector_placeholder_projected metaFailInvoke "metadata_analysis"
      "simulated detector failure" (by decide) rfl).2.1 rfl⟩

/-- C8: a fusion result with a `false` final verdict is rendered as the
"appears to be authentic" sentence with `1 - final_confidence` as the
percentage followed by the fixed no-indicators sentence; and an input on
which the rendering body raises (a required key is absent) yields the fixed
fallback sentence instead of an error. -/
theorem summary_authentic_text_and_fallback :
    (∀ r : DetectionResults, r.is_ai_generated = false →
      generate_result_summary (detection_results_to_summary_input r) =
        "This image appears to be authentic with " ++
          formatPercent (1 - r.confidence_score) ++ " confidence. " ++
          "No significant indicators of AI generation were detected.") ∧
    (∀ d : SummaryInput, d.is_ai_generated = none ∨ d.confidence_score = none →
      generate_result_summary d =
        "Detection completed, but summary generation failed.") := by
  constructor
  · intro r h
    simp [generate_result_summary, render_summary,
      detection_results_to_summary_input, h]
  · intro d h
    rcases h with h | h
    · simp [generate_result_summary, render_summary, h]
    · cases hai : d.is_ai_generated <;>
        simp [generate_result_summary, render_summary, h, hai]

/-- Witness for C8: the all-failed run has verdict `false` and is rendered
as the authentic sentence; the empty dict is rendered as the fallback. -/
theorem summary_authentic_text_and_fallback_witness :
    (detect detection_methods allFailInvoke).is_ai_generated = false ∧
    generate_result_summary
        (detection_results_to_summary_input (detect detection_methods allFailInvoke)) =
      "This image appears to be authentic with " ++
        formatPercent (1 - (detect detection_methods allFailInvoke).confidence_score) ++
        " confidence. " ++
        "No significant indicators of AI generation were detected." ∧
    generate_result_summary ⟨none, none, none⟩ =
      "Detection completed, but summary generation failed." :=
  ⟨by decide,
    summary_authentic_text_and_fallback.1
      (detect detection_methods allFailInvoke) (by decide),
    summary_authentic_text_and_fallback.2 ⟨none, none, none⟩ (Or.inl rfl)⟩

/-- C10: a run can have a `true` final verdict with an empty
`contributing_factors` list (all detectors at confidence exactly `0.6`),
and its summary is then just the "likely AI-generated" sentence with no
indicators clause appended. -/
theorem positive_verdict_with_empty_factors :
    (detect detection_methods const06Invoke).is_ai_generated = true ∧
    (detect detection_methods const06Invoke).contributing_factors = [] ∧
    generate_result_summary
        (detection_results_to_summary_input (detect detection_methods const06Invoke)) =
      "This image is likely AI-generated with 60.0% confidence. " := by decide

end SkyGate
